import Mathlib

/-!
Verification of the breakpoint-classifier composable
(`packages/vuetify/src/composables/display.ts`).

The file shallowly embeds the data model and the computation of the
composable: option records, the deep-merge based option parsing, the
user-agent platform snapshot, the viewport readers, and the derived
display state recomputed by the `watchEffect` body.  Machine numbers of
the source are viewport widths/heights and thresholds, all non-negative
integers here, modelled as `Nat`.
-/

namespace Vuetify.Display

/-- `DisplayBreakpoint` from `display.ts`: the five bucket labels. -/
inductive DisplayBreakpoint where
  | xs
  | sm
  | md
  | lg
  | xl
deriving DecidableEq, Repr

/-- The `number | DisplayBreakpoint` union used for `mobileBreakpoint`. -/
inductive MobileBreakpoint where
  | num (value : Nat)
  | bp (bkpt : DisplayBreakpoint)
deriving DecidableEq, Repr

/-- `Partial<DisplayThresholds>`: every field optional, as in the
`thresholds` option of `DisplayOptions`. -/
structure PartialThresholds where
  xs : Option Nat
  sm : Option Nat
  md : Option Nat
  lg : Option Nat
  xl : Option Nat
deriving DecidableEq, Repr

/-- `DisplayOptions` from `display.ts`: both options are optional. -/
structure DisplayOptions where
  mobileBreakpoint : Option MobileBreakpoint
  thresholds : Option PartialThresholds
deriving DecidableEq, Repr

/-- The runtime shape of the resolved thresholds.  The TS interface
`DisplayThresholds` declares all five fields as `number`, but
`defaultDisplayOptions` supplies no `xl` entry and `parseDisplayOptions`
only casts (`as InternalDisplayOptions`), so at runtime `xl` is present
only when the caller supplied it: it is an `Option Nat` here. -/
structure DisplayThresholds where
  xs : Nat
  sm : Nat
  md : Nat
  lg : Nat
  xl : Option Nat
deriving DecidableEq, Repr

/-- `InternalDisplayOptions` from `display.ts`, with the runtime
threshold shape. -/
structure InternalDisplayOptions where
  mobileBreakpoint : MobileBreakpoint
  thresholds : DisplayThresholds
deriving DecidableEq, Repr

/-- `DisplayPlatform` from `display.ts`. -/
structure DisplayPlatform where
  android : Bool
  ios : Bool
  cordova : Bool
  electron : Bool
  chrome : Bool
  edge : Bool
  firefox : Bool
  opera : Bool
  win : Bool
  mac : Bool
  linux : Bool
  intersection : Bool
  touch : Bool
  ssr : Bool
deriving DecidableEq, Repr

/-- `DisplayInstance` from `display.ts`: the derived state record. -/
structure DisplayInstance where
  xs : Bool
  sm : Bool
  md : Bool
  lg : Bool
  xl : Bool
  smAndDown : Bool
  smAndUp : Bool
  mdAndDown : Bool
  mdAndUp : Bool
  lgAndDown : Bool
  lgAndUp : Bool
  name : DisplayBreakpoint
  height : Nat
  width : Nat
  mobile : Bool
  mobileBreakpoint : MobileBreakpoint
  platform : DisplayPlatform
  thresholds : DisplayThresholds
deriving DecidableEq, Repr

/-- `defaultDisplayOptions` from `display.ts`: `mobileBreakpoint: 'md'`
and thresholds `xs: 600, sm: 960, md: 1280, lg: 1920` (no `xl` entry). -/
def defaultDisplayOptions : DisplayOptions :=
  { mobileBreakpoint := some (MobileBreakpoint.bp DisplayBreakpoint.md)
    thresholds := some { xs := some 600, sm := some 960, md := some 1280, lg := some 1920, xl := none } }

/-- Merge of one optional field: the override wins when present. -/
def mergeOpt {α : Type} (dflt override : Option α) : Option α :=
  match override with
  | some v => some v
  | none => dflt

/-- Field-wise merge of two partial threshold records. -/
def mergePartialThresholds (dflt override : PartialThresholds) : PartialThresholds :=
  { xs := mergeOpt dflt.xs override.xs
    sm := mergeOpt dflt.sm override.sm
    md := mergeOpt dflt.md override.md
    lg := mergeOpt dflt.lg override.lg
    xl := mergeOpt dflt.xl override.xl }

/-- Modelled from the spec: `mergeDeep` is imported from `@/util`, whose
source is not included under `src/`.  The spec says "Unspecified fields
fall back to defaults via a deep-merge of defaults and overrides", so a
present override field replaces the default field, and the nested
`thresholds` object is merged field-wise rather than replaced whole. -/
def mergeDeep (dflt override : DisplayOptions) : DisplayOptions :=
  { mobileBreakpoint := mergeOpt dflt.mobileBreakpoint override.mobileBreakpoint
    thresholds :=
      match dflt.thresholds, override.thresholds with
      | none, none => none
      | some dt, none => some dt
      | none, some ot => some ot
      | some dt, some ot => some (mergePartialThresholds dt ot) }

/-- `parseDisplayOptions` from `display.ts`:
`mergeDeep(defaultDisplayOptions, options) as InternalDisplayOptions`,
with the TS default parameter substituting `defaultDisplayOptions` when
no options are given.  The cast is realized by reading the merged record
as `InternalDisplayOptions`; since the defaults supply
`mobileBreakpoint` and the four lower thresholds, the `getD` fallbacks
(set to those same defaults) are never reached, and `xl` stays optional
exactly as at runtime. -/
def parseDisplayOptions (options : Option DisplayOptions) : InternalDisplayOptions :=
  let o := options.getD defaultDisplayOptions
  let merged := mergeDeep defaultDisplayOptions o
  let mt := merged.thresholds.getD { xs := none, sm := none, md := none, lg := none, xl := none }
  { mobileBreakpoint := merged.mobileBreakpoint.getD (MobileBreakpoint.bp DisplayBreakpoint.md)
    thresholds :=
      { xs := mt.xs.getD 600
        sm := mt.sm.getD 960
        md := mt.md.getD 1280
        lg := mt.lg.getD 1920
        xl := mt.xl } }

/-- Modelled from the spec: the environment collaborators used by
`display.ts` but defined outside `src/` — `IN_BROWSER`,
`SUPPORTS_INTERSECTION` and `SUPPORTS_TOUCH` from `@/util/globals`,
together with the browser globals `window.navigator.userAgent`,
`document.documentElement.clientWidth/clientHeight` and
`window.innerWidth/innerHeight`.  The spec lists these as "a way to read
current viewport width and height on demand; ... a way to read an
environment-identification string; a way to query touch-capability and
intersection-observation capability; a boolean indicating whether a live
viewport exists at all (vs. headless/server context)". -/
structure Env where
  inBrowser : Bool
  navUserAgent : String
  docClientWidth : Nat
  winInnerWidth : Nat
  docClientHeight : Nat
  winInnerHeight : Nat
  supportsIntersection : Bool
  supportsTouch : Bool
deriving DecidableEq, Repr

/-- `getClientWidth` from `display.ts`: in a browser, the max of
`document.documentElement.clientWidth` and `window.innerWidth`;
otherwise 0 (SSR). -/
def getClientWidth (env : Env) : Nat :=
  if env.inBrowser then max env.docClientWidth env.winInnerWidth else 0

/-- `getClientHeight` from `display.ts`: in a browser, the max of
`document.documentElement.clientHeight` and `window.innerHeight`;
otherwise 0 (SSR). -/
def getClientHeight (env : Env) : Nat :=
  if env.inBrowser then max env.docClientHeight env.winInnerHeight else 0

/-- The identification string `getPlatform` matches against:
`IN_BROWSER ? window.navigator.userAgent : 'ssr'`. -/
def matchedUserAgent (env : Env) : String :=
  if env.inBrowser then env.navUserAgent else "ssr"

/-- Substring test on character lists: does `pat` occur contiguously? -/
def hasInfix (pat : List Char) : List Char → Bool
  | [] => pat.isEmpty
  | c :: cs => pat.isPrefixOf (c :: cs) || hasInfix pat cs

/-- The local `match` helper of `getPlatform`.  Every regex used there
is a plain lowercase literal (or an alternation of such literals, split
at the call sites below), so `userAgent.match(re)` is a case-sensitive
substring test. -/
def uaMatch (userAgent pat : String) : Bool :=
  hasInfix pat.data userAgent.data

/-- `getPlatform` from `display.ts`. -/
def getPlatform (env : Env) : DisplayPlatform :=
  let userAgent := matchedUserAgent env
  { android := uaMatch userAgent "android"
    ios := uaMatch userAgent "iphone" || uaMatch userAgent "ipad" || uaMatch userAgent "ipod"
    cordova := uaMatch userAgent "cordova"
    electron := uaMatch userAgent "electron"
    chrome := uaMatch userAgent "chrome"
    edge := uaMatch userAgent "edge"
    firefox := uaMatch userAgent "firefox"
    opera := uaMatch userAgent "opera"
    win := uaMatch userAgent "win"
    mac := uaMatch userAgent "mac"
    linux := uaMatch userAgent "linux"
    intersection := env.supportsIntersection
    touch := env.supportsTouch
    ssr := uaMatch userAgent "ssr" }

/-- The threshold lookup `thresholds[mobileBreakpoint]` for a breakpoint
name; only `xl` can be absent at runtime. -/
def DisplayThresholds.lookup (t : DisplayThresholds) : DisplayBreakpoint → Option Nat
  | DisplayBreakpoint.xs => some t.xs
  | DisplayBreakpoint.sm => some t.sm
  | DisplayBreakpoint.md => some t.md
  | DisplayBreakpoint.lg => some t.lg
  | DisplayBreakpoint.xl => t.xl

/-- `breakpointValue` from the `watchEffect` body:
`typeof mobileBreakpoint === 'number' ? mobileBreakpoint : thresholds[mobileBreakpoint]`. -/
def breakpointValue (t : DisplayThresholds) (mb : MobileBreakpoint) : Option Nat :=
  match mb with
  | MobileBreakpoint.num n => some n
  | MobileBreakpoint.bp b => t.lookup b

/-- The body of the `watchEffect` in `createDisplay`, as a pure function
of the resolved thresholds, the mobile breakpoint, the platform snapshot
and the current width and height.  The JS comparison
`width.value < breakpointValue` when the looked-up threshold is absent
(`undefined`) evaluates to false (comparison with NaN); the `none`
branch of `mobile` encodes exactly that. -/
def computeDisplayState (thresholds : DisplayThresholds) (mobileBreakpoint : MobileBreakpoint)
    (platform : DisplayPlatform) (width height : Nat) : DisplayInstance :=
  let xs := decide (width < thresholds.xs)
  let sm := decide (width < thresholds.sm) && !xs
  let md := decide (width < thresholds.md) && !(sm || xs)
  let lg := decide (width < thresholds.lg) && !(md || sm || xs)
  let xl := decide (width ≥ thresholds.lg)
  let name :=
    if xs then DisplayBreakpoint.xs
    else if sm then DisplayBreakpoint.sm
    else if md then DisplayBreakpoint.md
    else if lg then DisplayBreakpoint.lg
    else DisplayBreakpoint.xl
  let bv := breakpointValue thresholds mobileBreakpoint
  let mobile :=
    if !platform.ssr then
      match bv with
      | some c => decide (width < c)
      | none => false
    else platform.android || platform.ios || platform.opera
  { xs := xs
    sm := sm
    md := md
    lg := lg
    xl := xl
    smAndDown := !(md || lg || xl)
    smAndUp := !xs
    mdAndDown := !(lg || xl)
    mdAndUp := !(xs || sm)
    lgAndDown := !xl
    lgAndUp := !(xs || sm || md)
    name := name
    height := height
    width := width
    mobile := mobile
    mobileBreakpoint := mobileBreakpoint
    platform := platform
    thresholds := thresholds }

/-- `createDisplay` from `display.ts`, restricted to its derived state:
parse the options, take the platform snapshot and the initial viewport
size from the environment, and compute the display state. -/
def createDisplay (env : Env) (options : Option DisplayOptions) : DisplayInstance :=
  let parsed := parseDisplayOptions options
  computeDisplayState parsed.thresholds parsed.mobileBreakpoint (getPlatform env)
    (getClientWidth env) (getClientHeight env)

/-- `useDisplay` from `display.ts`: the `inject` lookup is the optional
argument; an empty lookup throws
`new Error('Could not find Vuetify display injection')`. -/
def useDisplay (display : Option DisplayInstance) : Except String DisplayInstance :=
  match display with
  | none => Except.error "Could not find Vuetify display injection"
  | some d => Except.ok d

/-- A platform snapshot with every flag off; used for concrete
evaluations where only `ssr` (false) matters. -/
def plainPlatform : DisplayPlatform :=
  { android := false, ios := false, cordova := false, electron := false, chrome := false
    edge := false, firefox := false, opera := false, win := false, mac := false
    linux := false, intersection := false, touch := false, ssr := false }

/-- The resolved default thresholds. -/
def defaultThresholds : DisplayThresholds :=
  (parseDisplayOptions none).thresholds

/-- A live-viewport environment with the given viewport size and a
user-agent string matching none of the platform patterns. -/
def liveEnv (w h : Nat) : Env :=
  { inBrowser := true, navUserAgent := "mozilla", docClientWidth := w, winInnerWidth := w
    docClientHeight := h, winInnerHeight := h, supportsIntersection := true, supportsTouch := false }

/-- A headless environment (no live viewport). -/
def headlessEnv : Env :=
  { inBrowser := false, navUserAgent := "", docClientWidth := 0, winInnerWidth := 0
    docClientHeight := 0, winInnerHeight := 0, supportsIntersection := false, supportsTouch := false }

/-- A zero-size browser environment whose user-agent string contains
both the ssr sentinel and android. -/
def ssrAndroidEnv : Env :=
  { inBrowser := true, navUserAgent := "android ssr", docClientWidth := 0, winInnerWidth := 0
    docClientHeight := 0, winInnerHeight := 0, supportsIntersection := false, supportsTouch := false }

/-- The platform snapshot taken in a headless environment. -/
def ssrPlatform : DisplayPlatform :=
  getPlatform headlessEnv

/-- A sample partial thresholds override supplying only `sm`. -/
def samplePartial : PartialThresholds :=
  { xs := none, sm := some 800, md := none, lg := none, xl := none }

/-- A sample configuration with no `mobileBreakpoint` and a partial
thresholds override. -/
def sampleOptions : DisplayOptions :=
  { mobileBreakpoint := none, thresholds := some samplePartial }

/-- A configuration selecting the `xl` threshold as mobile breakpoint
without supplying `thresholds.xl`. -/
def xlOptions : DisplayOptions :=
  { mobileBreakpoint := some (MobileBreakpoint.bp DisplayBreakpoint.xl), thresholds := none }

/-- A display instance used as a sample injected value. -/
def sampleDisplay : DisplayInstance :=
  createDisplay headlessEnv none

/-- C1: for every width and every thresholds record whose four
boundaries ascend (xs ≤ sm ≤ md ≤ lg), exactly one of the five bucket
flags computed by the classifier is true. -/
theorem bucket_flags_exclusive (t : DisplayThresholds) (mb : MobileBreakpoint)
    (p : DisplayPlatform) (w h : Nat)
    (hasc : t.xs ≤ t.sm ∧ t.sm ≤ t.md ∧ t.md ≤ t.lg) :
    (computeDisplayState t mb p w h).xs.toNat + (computeDisplayState t mb p w h).sm.toNat +
      (computeDisplayState t mb p w h).md.toNat + (computeDisplayState t mb p w h).lg.toNat +
      (computeDisplayState t mb p w h).xl.toNat = 1 := by
  obtain ⟨h1, h2, h3⟩ := hasc
  by_cases hxs : w < t.xs <;> by_cases hsm : w < t.sm <;> by_cases hmd : w < t.md <;>
    by_cases hlg : w < t.lg <;> by_cases hxl : t.lg ≤ w <;>
      simp [computeDisplayState, hxs, hsm, hmd, hlg, hxl] <;> omega

/-- C1 witness: with the default thresholds and width 700 the flag
count is one. -/
theorem bucket_flags_exclusive_witness :
    (computeDisplayState defaultThresholds (MobileBreakpoint.bp DisplayBreakpoint.md)
        plainPlatform 700 0).xs.toNat +
      (computeDisplayState defaultThresholds (MobileBreakpoint.bp DisplayBreakpoint.md)
        plainPlatform 700 0).sm.toNat +
      (computeDisplayState defaultThresholds (MobileBreakpoint.bp DisplayBreakpoint.md)
        plainPlatform 700 0).md.toNat +
      (computeDisplayState defaultThresholds (MobileBreakpoint.bp DisplayBreakpoint.md)
        plainPlatform 700 0).lg.toNat +
      (computeDisplayState defaultThresholds (MobileBreakpoint.bp DisplayBreakpoint.md)
        plainPlatform 700 0).xl.toNat = 1 :=
  bucket_flags_exclusive defaultThresholds (MobileBreakpoint.bp DisplayBreakpoint.md)
    plainPlatform 700 0 (by decide)

/-- C2: for every width (and ascending thresholds), the `name` field
equals the label of the single true bucket flag, and is `xl` when none
of the four lower flags is true. -/
theorem name_matches_bucket (t : DisplayThresholds) (mb : MobileBreakpoint)
    (p : DisplayPlatform) (w h : Nat)
    (hasc : t.xs ≤ t.sm ∧ t.sm ≤ t.md ∧ t.md ≤ t.lg) :
    ((computeDisplayState t mb p w h).xs = true →
      (computeDisplayState t mb p w h).name = DisplayBreakpoint.xs) ∧
    ((computeDisplayState t mb p w h).sm = true →
      (computeDisplayState t mb p w h).name = DisplayBreakpoint.sm) ∧
    ((computeDisplayState t mb p w h).md = true →
      (computeDisplayState t mb p w h).name = DisplayBreakpoint.md) ∧
    ((computeDisplayState t mb p w h).lg = true →
      (computeDisplayState t mb p w h).name = DisplayBreakpoint.lg) ∧
    ((computeDisplayState t mb p w h).xs = false →
      (computeDisplayState t mb p w h).sm = false →
      (computeDisplayState t mb p w h).md = false →
      (computeDisplayState t mb p w h).lg = false →
      (computeDisplayState t mb p w h).name = DisplayBreakpoint.xl) := by
  by_cases hxs : w < t.xs <;> by_cases hsm : w < t.sm <;> by_cases hmd : w < t.md <;>
    by_cases hlg : w < t.lg <;>
      simp [computeDisplayState, hxs, hsm, hmd, hlg]

/-- C2 witness: with the default thresholds and width 1000 the md flag
is set and the name is md. -/
theorem name_matches_bucket_witness :
    (computeDisplayState defaultThresholds (MobileBreakpoint.bp DisplayBreakpoint.md)
        plainPlatform 1000 0).name = DisplayBreakpoint.md :=
  (name_matches_bucket defaultThresholds (MobileBreakpoint.bp DisplayBreakpoint.md)
      plainPlatform 1000 0 (by decide)).2.2.1 (by decide)

/-- C3 counterexample: the claim quantifies over every width and
thresholds, but with the non-ascending thresholds xs 0, sm 0, md 100,
lg 50 and width 70 the md flag is true while mdAndDown is false, so the
claimed consistency fails. -/
theorem cumulative_consistency_counterexample :
    (computeDisplayState ⟨0, 0, 100, 50, none⟩ (MobileBreakpoint.num 0) plainPlatform 70 0).md = true ∧
    (computeDisplayState ⟨0, 0, 100, 50, none⟩ (MobileBreakpoint.num 0) plainPlatform 70 0).mdAndDown = false := by
  decide

/-- C3 (amended): for every width and thresholds the six cumulative
flags satisfy the stated equations over the bucket flags; and when the
thresholds ascend, whenever md is true both mdAndUp and mdAndDown are
true. -/
theorem cumulative_flags_consistent (t : DisplayThresholds) (mb : MobileBreakpoint)
    (p : DisplayPlatform) (w h : Nat) (s : DisplayInstance)
    (hs : s = computeDisplayState t mb p w h) :
    (s.smAndDown = (!(s.md || s.lg || s.xl)) ∧
     s.smAndUp = (!s.xs) ∧
     s.mdAndDown = (!(s.lg || s.xl)) ∧
     s.mdAndUp = (!(s.xs || s.sm)) ∧
     s.lgAndDown = (!s.xl) ∧
     s.lgAndUp = (!(s.xs || s.sm || s.md))) ∧
    (t.xs ≤ t.sm ∧ t.sm ≤ t.md ∧ t.md ≤ t.lg → s.md = true →
      s.mdAndUp = true ∧ s.mdAndDown = true) := by
  subst hs
  constructor
  · exact ⟨rfl, rfl, rfl, rfl, rfl, rfl⟩
  · rintro ⟨h1, h2, h3⟩ hmd
    by_cases hxs : w < t.xs <;> by_cases hsm : w < t.sm <;> by_cases hmd2 : w < t.md <;>
      simp [computeDisplayState, hxs, hsm, hmd2] at hmd ⊢ <;> omega

/-- C3 witness: with the default thresholds at width 1000 the md flag
is set and both mdAndUp and mdAndDown hold. -/
theorem cumulative_flags_consistent_witness :
    (computeDisplayState defaultThresholds (MobileBreakpoint.bp DisplayBreakpoint.md)
        plainPlatform 1000 0).mdAndUp = true ∧
    (computeDisplayState defaultThresholds (MobileBreakpoint.bp DisplayBreakpoint.md)
        plainPlatform 1000 0).mdAndDown = true :=
  (cumulative_flags_consistent defaultThresholds (MobileBreakpoint.bp DisplayBreakpoint.md)
      plainPlatform 1000 0 _ rfl).2 (by decide) (by decide)

/-- C4: the mobile cutoff is the numeric mobileBreakpoint itself, or
the value stored under the given threshold name; with a non-ssr
platform snapshot mobile compares the width against the cutoff, and
with an ssr snapshot mobile is the android/ios/opera heuristic,
independent of the width. -/
theorem mobile_cutoff_resolution (t : DisplayThresholds) (mb : MobileBreakpoint)
    (p : DisplayPlatform) (w h : Nat) :
    (∀ n, mb = MobileBreakpoint.num n → breakpointValue t mb = some n) ∧
    (∀ b, mb = MobileBreakpoint.bp b → breakpointValue t mb = t.lookup b) ∧
    (p.ssr = false → ∀ c, breakpointValue t mb = some c →
      (computeDisplayState t mb p w h).mobile = decide (w < c)) ∧
    (p.ssr = true →
      (computeDisplayState t mb p w h).mobile = (p.android || p.ios || p.opera)) := by
  refine ⟨?_, ?_, ?_, ?_⟩
  · rintro n rfl; rfl
  · rintro b rfl; rfl
  · intro hssr c hc
    simp [computeDisplayState, hssr, hc]
  · intro hssr
    simp [computeDisplayState, hssr]

/-- C4 witness: a numeric mobileBreakpoint of 800 resolves to cutoff
800; at width 500 a non-ssr snapshot yields the width comparison and an
ssr snapshot yields the platform heuristic. -/
theorem mobile_cutoff_resolution_witness :
    breakpointValue defaultThresholds (MobileBreakpoint.num 800) = some 800 ∧
    (computeDisplayState defaultThresholds (MobileBreakpoint.num 800)
        plainPlatform 500 0).mobile = decide (500 < 800) ∧
    (computeDisplayState defaultThresholds (MobileBreakpoint.num 800)
        ssrPlatform 500 0).mobile = (ssrPlatform.android || ssrPlatform.ios || ssrPlatform.opera) :=
  ⟨(mobile_cutoff_resolution defaultThresholds (MobileBreakpoint.num 800) plainPlatform 500 0).1
      800 rfl,
   (mobile_cutoff_resolution defaultThresholds (MobileBreakpoint.num 800) plainPlatform 500 0).2.2.1
      (by decide) 800 rfl,
   (mobile_cutoff_resolution defaultThresholds (MobileBreakpoint.num 800) ssrPlatform 500 0).2.2.2
      (by decide)⟩

/-- C5 counterexample: with the default configuration in a live
viewport, the name at width 1500 is lg (1500 is not below the md
threshold 1280), not md as the claim states. -/
theorem default_resize_name_counterexample :
    (createDisplay (liveEnv 1500 400) none).name = DisplayBreakpoint.lg ∧
    (createDisplay (liveEnv 1500 400) none).name ≠ DisplayBreakpoint.md := by
  decide

/-- C5 (amended): with the default configuration in a live-viewport
context, changing the width from 500 to 1500 transitions name from xs
to lg, and mobile from true to false (cutoff 1280). -/
theorem default_resize_transition :
    (createDisplay (liveEnv 500 400) none).name = DisplayBreakpoint.xs ∧
    (createDisplay (liveEnv 500 400) none).mobile = true ∧
    (createDisplay (liveEnv 1500 400) none).name = DisplayBreakpoint.lg ∧
    (createDisplay (liveEnv 1500 400) none).mobile = false := by
  decide

/-- C6 counterexample: with thresholds xs 0, sm 340, md 540, lg 800 and
width 339 the xs flag is false (339 < 0 fails), not true as the claim
states. -/
theorem narrow_thresholds_xs_counterexample :
    (computeDisplayState ⟨0, 340, 540, 800, none⟩ (MobileBreakpoint.bp DisplayBreakpoint.md)
        plainPlatform 339 0).xs = false := by
  decide

/-- C6 (amended): with thresholds xs 0, sm 340, md 540, lg 800 and
width 339, the sm bucket flag is true and the xs, md, lg and xl bucket
flags are all false. -/
theorem narrow_thresholds_buckets :
    (computeDisplayState ⟨0, 340, 540, 800, none⟩ (MobileBreakpoint.bp DisplayBreakpoint.md)
        plainPlatform 339 0).xs = false ∧
    (computeDisplayState ⟨0, 340, 540, 800, none⟩ (MobileBreakpoint.bp DisplayBreakpoint.md)
        plainPlatform 339 0).sm = true ∧
    (computeDisplayState ⟨0, 340, 540, 800, none⟩ (MobileBreakpoint.bp DisplayBreakpoint.md)
        plainPlatform 339 0).md = false ∧
    (computeDisplayState ⟨0, 340, 540, 800, none⟩ (MobileBreakpoint.bp DisplayBreakpoint.md)
        plainPlatform 339 0).lg = false ∧
    (computeDisplayState ⟨0, 340, 540, 800, none⟩ (MobileBreakpoint.bp DisplayBreakpoint.md)
        plainPlatform 339 0).xl = false := by
  decide

/-- C7: in a headless context (no live viewport) the width and height
read from the environment are 0; and whenever the identification string
actually matched by the platform snapshot contains both the ssr
sentinel and android, the mobile flag is true regardless of the width,
in particular at width 0. -/
theorem headless_android_mobile (env : Env) (options : Option DisplayOptions)
    (hssr : uaMatch (matchedUserAgent env) "ssr" = true)
    (hand : uaMatch (matchedUserAgent env) "android" = true) :
    (env.inBrowser = false → getClientWidth env = 0 ∧ getClientHeight env = 0) ∧
    (createDisplay env options).mobile = true := by
  constructor
  · intro hb
    simp [getClientWidth, getClientHeight, hb]
  · simp [createDisplay, computeDisplayState, getPlatform, hssr, hand]

/-- C7 witness: a zero-size environment whose matched identification
string is "android ssr" yields mobile true at width 0. -/
theorem headless_android_mobile_witness :
    (ssrAndroidEnv.inBrowser = false →
      getClientWidth ssrAndroidEnv = 0 ∧ getClientHeight ssrAndroidEnv = 0) ∧
    (createDisplay ssrAndroidEnv none).mobile = true :=
  headless_android_mobile ssrAndroidEnv none (by decide) (by decide)

/-- C8: useDisplay returns the distinct "not initialized" error exactly
when the injection lookup finds nothing, and otherwise returns the
registered display state unchanged. -/
theorem useDisplay_error_iff (display : Option DisplayInstance) :
    (useDisplay display = Except.error "Could not find Vuetify display injection" ↔
      display = none) ∧
    (∀ d, display = some d → useDisplay display = Except.ok d) := by
  cases display <;> simp [useDisplay]

/-- C8 witness: a registered display instance is returned without
error. -/
theorem useDisplay_error_iff_witness :
    useDisplay (some sampleDisplay) = Except.ok sampleDisplay :=
  (useDisplay_error_iff (some sampleDisplay)).2 sampleDisplay rfl

/-- C9: parsing an optional configuration deep-merges it with the
defaults: an absent mobileBreakpoint resolves to the md name and a
supplied one is kept; absent thresholds resolve to the default record
xs 600, sm 960, md 1280, lg 1920 (no xl); and within a supplied partial
thresholds record each absent field resolves to its default while each
supplied field keeps its supplied value. -/
theorem parse_options_merge (o : DisplayOptions) :
    ((o.mobileBreakpoint = none →
        (parseDisplayOptions (some o)).mobileBreakpoint = MobileBreakpoint.bp DisplayBreakpoint.md) ∧
     (∀ m, o.mobileBreakpoint = some m → (parseDisplayOptions (some o)).mobileBreakpoint = m)) ∧
    (o.thresholds = none →
      (parseDisplayOptions (some o)).thresholds =
        { xs := 600, sm := 960, md := 1280, lg := 1920, xl := none }) ∧
    (∀ pt, o.thresholds = some pt →
      ((pt.xs = none → (parseDisplayOptions (some o)).thresholds.xs = 600) ∧
       (∀ v, pt.xs = some v → (parseDisplayOptions (some o)).thresholds.xs = v)) ∧
      ((pt.sm = none → (parseDisplayOptions (some o)).thresholds.sm = 960) ∧
       (∀ v, pt.sm = some v → (parseDisplayOptions (some o)).thresholds.sm = v)) ∧
      ((pt.md = none → (parseDisplayOptions (some o)).thresholds.md = 1280) ∧
       (∀ v, pt.md = some v → (parseDisplayOptions (some o)).thresholds.md = v)) ∧
      ((pt.lg = none → (parseDisplayOptions (some o)).thresholds.lg = 1920) ∧
       (∀ v, pt.lg = some v → (parseDisplayOptions (some o)).thresholds.lg = v))) := by
  obtain ⟨mbo, tho⟩ := o
  refine ⟨⟨?_, ?_⟩, ?_, ?_⟩
  · rintro rfl; rfl
  · rintro m rfl; rfl
  · rintro rfl; rfl
  · rintro pt rfl
    obtain ⟨pxs, psm, pmd, plg, pxl⟩ := pt
    refine ⟨⟨?_, ?_⟩, ⟨?_, ?_⟩, ⟨?_, ?_⟩, ⟨?_, ?_⟩⟩ <;>
      first
        | (rintro rfl; rfl)
        | (rintro v rfl; rfl)

/-- C9 witness: a configuration with no mobileBreakpoint and only an sm
threshold supplied resolves mobileBreakpoint to md, xs to its default
600 and sm to the supplied 800. -/
theorem parse_options_merge_witness :
    (parseDisplayOptions (some sampleOptions)).mobileBreakpoint =
      MobileBreakpoint.bp DisplayBreakpoint.md ∧
    (parseDisplayOptions (some sampleOptions)).thresholds.xs = 600 ∧
    (parseDisplayOptions (some sampleOptions)).thresholds.sm = 800 :=
  ⟨(parse_options_merge sampleOptions).1.1 rfl,
   ((parse_options_merge sampleOptions).2.2 samplePartial rfl).1.1 rfl,
   ((parse_options_merge sampleOptions).2.2 samplePartial rfl).2.1.2 800 rfl⟩

/-- C10: the default thresholds carry no xl entry; when the
mobileBreakpoint is the name xl and the configuration supplies no
thresholds.xl, the cutoff lookup is empty and, with a non-ssr platform
snapshot, the mobile flag is false at every width. -/
theorem missing_xl_mobile_false (o : DisplayOptions) (p : DisplayPlatform) (w h : Nat)
    (hmb : o.mobileBreakpoint = some (MobileBreakpoint.bp DisplayBreakpoint.xl))
    (hxl : ∀ pt, o.thresholds = some pt → pt.xl = none)
    (hp : p.ssr = false) :
    defaultThresholds.xl = none ∧
    (parseDisplayOptions (some o)).thresholds.xl = none ∧
    breakpointValue (parseDisplayOptions (some o)).thresholds
      (parseDisplayOptions (some o)).mobileBreakpoint = none ∧
    (computeDisplayState (parseDisplayOptions (some o)).thresholds
      (parseDisplayOptions (some o)).mobileBreakpoint p w h).mobile = false := by
  obtain ⟨mbo, tho⟩ := o
  simp only at hmb
  subst hmb
  have hxlnone : (parseDisplayOptions (some ⟨some (MobileBreakpoint.bp DisplayBreakpoint.xl), tho⟩)).thresholds.xl = none := by
    cases tho with
    | none => rfl
    | some pt =>
        have := hxl pt rfl
        simp [parseDisplayOptions, mergeDeep, mergePartialThresholds, mergeOpt,
          defaultDisplayOptions, this]
  refine ⟨rfl, hxlnone, ?_, ?_⟩
  · simpa [breakpointValue, DisplayThresholds.lookup] using hxlnone
  · have hbv : breakpointValue
        (parseDisplayOptions (some ⟨some (MobileBreakpoint.bp DisplayBreakpoint.xl), tho⟩)).thresholds
        (parseDisplayOptions (some ⟨some (MobileBreakpoint.bp DisplayBreakpoint.xl), tho⟩)).mobileBreakpoint = none := by
      simpa [breakpointValue, DisplayThresholds.lookup] using hxlnone
    simp [computeDisplayState, hp, hbv]

/-- C10 witness: the configuration selecting the xl name with no
supplied thresholds yields no cutoff and mobile false at width 5000. -/
theorem missing_xl_mobile_false_witness :
    defaultThresholds.xl = none ∧
    (parseDisplayOptions (some xlOptions)).thresholds.xl = none ∧
    breakpointValue (parseDisplayOptions (some xlOptions)).thresholds
      (parseDisplayOptions (some xlOptions)).mobileBreakpoint = none ∧
    (computeDisplayState (parseDisplayOptions (some xlOptions)).thresholds
      (parseDisplayOptions (some xlOptions)).mobileBreakpoint plainPlatform 5000 0).mobile = false :=
  missing_xl_mobile_false xlOptions plainPlatform 5000 0 rfl
    (by intro pt hpt; simp [xlOptions] at hpt) rfl

end Vuetify.Display
